import Mathlib

/-
Verification development for the docx page-layout / content-sanitization
pipeline (src/page_layout_processor.py).

Texts are modelled as `List Char`.  The Python `regex` patterns used by the
scrubber are embedded as terms of a small regex AST together with a
backtracking matcher that follows Python's preference order (leftmost match,
first alternative, greedy quantifiers, negative lookahead / variable-width
negative lookbehind).  Character classes `\d`, `\w`, `\s` are modelled
restricted to the scripts this corpus contains (ASCII, Latin-1 punctuation,
Bengali); this restriction only narrows which characters the classes accept
and is recorded at each class definition.
-/

namespace PageLayout

/-- Whitespace, modelling Python's `\s` / `str.strip()` character set
(ASCII whitespace, the C1 separators, and the common Unicode spaces). -/
def wsChar (c : Char) : Bool :=
  let n := c.toNat
  n = 0x20 || n = 0x9 || n = 0xA || n = 0xB || n = 0xC || n = 0xD ||
  (0x1C ≤ n && n ≤ 0x1F) || n = 0x85 || n = 0xA0 || n = 0x1680 ||
  (0x2000 ≤ n && n ≤ 0x200A) || n = 0x2028 || n = 0x2029 ||
  n = 0x202F || n = 0x205F || n = 0x3000

/-- ASCII decimal digit, the literal class `[0-9]`. -/
def digit09 (c : Char) : Bool := '0' ≤ c && c ≤ '9'

/-- Bengali decimal digit ০-৯ (U+09E6 - U+09EF). -/
def bengDigit (c : Char) : Bool := 0x9E6 ≤ c.toNat && c.toNat ≤ 0x9EF

/-- Python `\d` (Unicode decimal digits), restricted to the two digit scripts
appearing in this corpus: ASCII and Bengali. -/
def digitChar (c : Char) : Bool := digit09 c || bengDigit c

/-- ASCII letter. -/
def asciiAlpha (c : Char) : Bool :=
  ('a' ≤ c && c ≤ 'z') || ('A' ≤ c && c ≤ 'Z')

/-- ASCII upper-case letter, the class `[A-Z]`. -/
def upperAZ (c : Char) : Bool := 'A' ≤ c && c ≤ 'Z'

/-- Character of the Unicode Bengali block (U+0980 - U+09FF). -/
def bengaliBlock (c : Char) : Bool := 0x980 ≤ c.toNat && c.toNat ≤ 0x9FF

/-- Python `\w`, restricted to the scripts of this corpus:
ASCII alphanumerics, underscore and the Bengali block. -/
def wordChar (c : Char) : Bool :=
  asciiAlpha c || digit09 c || c = '_' || bengaliBlock c

/-- Python `str.strip()`: drop leading and trailing whitespace. -/
def pyStrip (t : List Char) : List Char :=
  ((t.dropWhile wsChar).reverse.dropWhile wsChar).reverse

/-- Case folding used for `re.IGNORECASE` matching: ASCII `A`-`Z` and the
Latin-1 upper-case range `À`-`Þ` (except `×`) are mapped to lower case.
This covers every cased character occurring in the embedded patterns. -/
def foldCI (c : Char) : Char :=
  let n := c.toNat
  if 0x41 ≤ n && n ≤ 0x5A then Char.ofNat (n + 0x20)
  else if 0xC0 ≤ n && n ≤ 0xDE && n ≠ 0xD7 then Char.ofNat (n + 0x20)
  else c

/-- Regex abstract syntax: exactly the constructs used by the source's
patterns.  `rep` is a greedy (possibly bounded) repetition of a character
class; `repg` is a greedy unbounded-above repetition `r{lo,}` of a
subexpression; `nla`/`nlb` are negative lookahead / lookbehind. -/
inductive Regex where
  | eps : Regex
  | lit (ci : Bool) (s : List Char) : Regex
  | cls (p : Char → Bool) : Regex
  | seq (a b : Regex) : Regex
  | alt (a b : Regex) : Regex
  | ropt (r : Regex) : Regex
  | rep (p : Char → Bool) (lo : Nat) (hi : Option Nat) : Regex
  | repg (r : Regex) (lo : Nat) : Regex
  | nla (r : Regex) : Regex
  | nlb (r : Regex) : Regex

/-- A matcher continuation: receives the reversed prefix consumed so far and
the remaining input, returns the final state of the first overall success. -/
abbrev MCont := List Char → List Char → Option (List Char × List Char)

/-- Match a literal (optionally case-insensitively), consuming it from the
input and pushing the consumed characters onto the reversed prefix. -/
def litStep (ci : Bool) : List Char → List Char → List Char →
    Option (List Char × List Char)
  | [], prev, s => some (prev, s)
  | _ :: _, _, [] => none
  | pc :: ps, prev, c :: cs =>
      if (if ci then foldCI c = foldCI pc else c = pc) then
        litStep ci ps (c :: prev) cs
      else none

/-- Greedy attempt of a class repetition: try consuming `n` characters,
then `n-1`, ... down to `lo` (Python's greedy backtracking order). -/
def repDesc (k : MCont) (prev s : List Char) (lo : Nat) :
    Nat → Option (List Char × List Char)
  | 0 =>
      if lo = 0 then k prev s else none
  | n + 1 =>
      if n + 1 < lo then none
      else
        match k ((s.take (n + 1)).reverse ++ prev) (s.drop (n + 1)) with
        | some r => some r
        | none => repDesc k prev s lo n

/-- Greedy repetition `r{lo,}` of a subexpression, driven by the body's
matcher `body`.  Following the regex library, an iteration that consumes no
input stops the repetition.  `fuel` bounds iterations by the input length. -/
def repgGo
    (body : List Char → List Char → MCont → Option (List Char × List Char))
    (lo : Nat) (k : MCont) :
    Nat → Nat → List Char → List Char → Option (List Char × List Char)
  | cnt, fuel, prev, s =>
    let more :=
      match fuel with
      | 0 => none
      | f + 1 =>
          body prev s (fun p2 s2 =>
            if s2.length < s.length then repgGo body lo k (cnt + 1) f p2 s2
            else none)
    match more with
    | some r => some r
    | none => if lo ≤ cnt then k prev s else none

/-- Continuation accepting only at the end of the input (used to require a
lookbehind body to end exactly at the current position). -/
def endK : MCont := fun p s => if s.isEmpty then some (p, s) else none

/-- Does the body match some suffix of the prefix (given reversed) entirely,
i.e. does a match of the lookbehind body end at the current position?
Walks the suffixes from shortest to longest. -/
def anyEnding
    (body : List Char → List Char → MCont → Option (List Char × List Char)) :
    List Char → List Char → Bool
  | pr, suf =>
    (body pr suf endK).isSome ||
      match pr with
      | [] => false
      | c :: pr2 => anyEnding body pr2 (c :: suf)

/-- The backtracking matcher.  `matchM r prev s k` tries to match `r` at the
start of `s` (with reversed prefix `prev` available to lookbehinds) and runs
`k` on every candidate end position in Python's preference order, returning
the first success. -/
def matchM : Regex → List Char → List Char → MCont →
    Option (List Char × List Char)
  | .eps, prev, s, k => k prev s
  | .lit ci ps, prev, s, k =>
      match litStep ci ps prev s with
      | some (p2, s2) => k p2 s2
      | none => none
  | .cls p, prev, s, k =>
      match s with
      | [] => none
      | c :: cs => if p c then k (c :: prev) cs else none
  | .seq a b, prev, s, k => matchM a prev s (fun p2 s2 => matchM b p2 s2 k)
  | .alt a b, prev, s, k =>
      match matchM a prev s k with
      | some r => some r
      | none => matchM b prev s k
  | .ropt r, prev, s, k =>
      match matchM r prev s k with
      | some r2 => some r2
      | none => k prev s
  | .rep p lo hi, prev, s, k =>
      let run := (s.takeWhile p).length
      let top := match hi with | none => run | some h => min run h
      repDesc k prev s lo top
  | .repg r lo, prev, s, k =>
      repgGo (fun p2 s2 k2 => matchM r p2 s2 k2) lo k 0 (s.length + 1) prev s
  | .nla r, prev, s, k =>
      match matchM r prev s (fun p2 s2 => some (p2, s2)) with
      | some _ => none
      | none => k prev s
  | .nlb r, prev, s, k =>
      if anyEnding (fun p2 s2 k2 => matchM r p2 s2 k2) prev [] then none
      else k prev s

/-- All non-overlapping matches of `r`, scanning left to right as
`re.finditer` does: at each position take the first (preference-order) match,
then continue after it; a zero-width match advances by one character. -/
def findIterGo (r : Regex) :
    Nat → List Char → List Char → Nat → List (Nat × Nat)
  | 0, _, _, _ => []
  | fuel + 1, prev, s, pos =>
    match matchM r prev s (fun p2 s2 => some (p2, s2)) with
    | some (_, s2) =>
        let len := s.length - s2.length
        if len = 0 then
          (pos, pos) ::
            (match s with
             | [] => []
             | c :: rest => findIterGo r fuel (c :: prev) rest (pos + 1))
        else
          (pos, pos + len) ::
            findIterGo r fuel ((s.take len).reverse ++ prev) (s.drop len)
              (pos + len)
    | none =>
        match s with
        | [] => []
        | c :: rest => findIterGo r fuel (c :: prev) rest (pos + 1)

/-- The `re.finditer` over a whole text. -/
def findIter (r : Regex) (t : List Char) : List (Nat × Nat) :=
  findIterGo r (t.length + 1) [] t 0

/-- The `re.search` succeeds exactly when `finditer` yields at least one match
(both scan left to right with the same leftmost-preference matcher). -/
def reSearch (r : Regex) (t : List Char) : Bool := !(findIter r t).isEmpty

/-- Delete one span `[start, stop)` from a text:
`new_text[:start] + new_text[stop:]`. -/
def delSpan (t : List Char) (sp : Nat × Nat) : List Char :=
  t.take sp.1 ++ t.drop sp.2

/-- Delete a list of spans iterating in reversed order, exactly as the
source's `for match in reversed(matches)` loop. -/
def removeSpansReversed (t : List Char) (spans : List (Nat × Nat)) :
    List Char :=
  spans.reverse.foldl delSpan t

/-! Pattern combinators. -/

/-- Sequence a list of regexes. -/
def rcat (l : List Regex) : Regex := l.foldr Regex.seq Regex.eps

/-- Alternation of a list of regexes, preferring earlier entries. -/
def ralts : List Regex → Regex
  | [] => Regex.eps
  | [r] => r
  | r :: rs => Regex.alt r (ralts rs)

/-- Case-sensitive literal. -/
def lits (s : String) : Regex := Regex.lit false s.data

/-- Case-insensitive literal (pattern compiled with `re.IGNORECASE`). -/
def litci (s : String) : Regex := Regex.lit true s.data

/-! Character classes appearing in the source's patterns. -/

/-- The class `[-\s]`. -/
def dashWs (c : Char) : Bool := c = '-' || wsChar c

/-- The class matching a slash or a dash. -/
def slashDash (c : Char) : Bool := c = '/' || c = '-'

/-- The class `[:।]` (colon or danda). -/
def colonDanda (c : Char) : Bool := c = ':' || c = '।'

/-- The class `[:।-]`. -/
def colonDandaDash (c : Char) : Bool := c = ':' || c = '।' || c = '-'

/-- The class `[\s\:]`. -/
def wsColon (c : Char) : Bool := wsChar c || c = ':'

/-- The class `[\+\d\-\s০-৯]` (Bengali digits are already in `\d`). -/
def phoneCls (c : Char) : Bool :=
  c = '+' || digitChar c || c = '-' || wsChar c

/-- Python `.` (any character except a newline). -/
def dotCls (c : Char) : Bool := c ≠ '\n'

/-- Python `\S`. -/
def notWs (c : Char) : Bool := !wsChar c

/-- The class `[\w\-\.]`. -/
def wordDashDot (c : Char) : Bool := wordChar c || c = '-' || c = '.'

/-- The class `[\d\-]`. -/
def digitDash (c : Char) : Bool := digitChar c || c = '-'

/-- The class `[\d\-\s]` / `[\d\s\-]`. -/
def digitDashWs (c : Char) : Bool := digitChar c || c = '-' || wsChar c

/-- The class `[০১]`. -/
def zeroOneBeng (c : Char) : Bool := c = '০' || c = '১'

/-- The class `[+৮৮]`. -/
def plusBeng8 (c : Char) : Bool := c = '+' || c = '৮'

/-- The class `[- ]`. -/
def dashSpace (c : Char) : Bool := c = '-' || c = ' '

/-- The class `[a-zA-Z0-9\s\.,!?\'\"()-]` of the plain-ASCII prose pattern. -/
def engProse (c : Char) : Bool :=
  asciiAlpha c || digit09 c || wsChar c ||
    c = ',' || c = '.' || c = '!' || c = '?' || c.toNat = 0x27 ||
    c.toNat = 0x22 || c = '(' || c = ')' || c = '-'

/-- Shorthand for a fixed-count class repetition `p{n}`. -/
def repN (p : Char → Bool) (n : Nat) : Regex := Regex.rep p n (some n)

/-- Shorthand for `\s*`. -/
def wsStar : Regex := Regex.rep wsChar 0 none

/-- Shorthand for `.*`. -/
def dotStar : Regex := Regex.rep dotCls 0 none

/-! The contact-detail pattern library (`_remove_contact_details`,
all searched with `re.IGNORECASE`). -/

/-- Phone pattern `(?<!\d)01\d{3}[-\s]?\d{6}(?!\d)`. -/
def phone_pat1 : Regex :=
  rcat [.nlb (.cls digitChar), lits "01", repN digitChar 3,
        .ropt (.cls dashWs), repN digitChar 6, .nla (.cls digitChar)]

/-- Phone pattern `(?<!\d)01\d{2}[-\s]?\d{7}(?!\d)`. -/
def phone_pat2 : Regex :=
  rcat [.nlb (.cls digitChar), lits "01", repN digitChar 2,
        .ropt (.cls dashWs), repN digitChar 7, .nla (.cls digitChar)]

/-- Phone pattern `(?<!\d)01\d{1}[-\s]?\d{8}(?!\d)`. -/
def phone_pat3 : Regex :=
  rcat [.nlb (.cls digitChar), lits "01", repN digitChar 1,
        .ropt (.cls dashWs), repN digitChar 8, .nla (.cls digitChar)]

/-- Phone pattern `(?<!\d)01\d{9}(?!\d)`. -/
def phone_pat4 : Regex :=
  rcat [.nlb (.cls digitChar), lits "01", repN digitChar 9,
        .nla (.cls digitChar)]

/-- Phone pattern `(?<!\d)01\d{3}[-]\d{3}[-]\d{3}(?!\d)`. -/
def phone_pat5 : Regex :=
  rcat [.nlb (.cls digitChar), lits "01", repN digitChar 3, lits "-",
        repN digitChar 3, lits "-", repN digitChar 3, .nla (.cls digitChar)]

/-- Phone pattern `(?<!\d)01\d{2}[-]\d{3}[-]\d{4}(?!\d)`. -/
def phone_pat6 : Regex :=
  rcat [.nlb (.cls digitChar), lits "01", repN digitChar 2, lits "-",
        repN digitChar 3, lits "-", repN digitChar 4, .nla (.cls digitChar)]

/-- Phone pattern `(?<!\d)01\d{4}[-]\d{6}(?!\d)`. -/
def phone_pat7 : Regex :=
  rcat [.nlb (.cls digitChar), lits "01", repN digitChar 4, lits "-",
        repN digitChar 6, .nla (.cls digitChar)]

/-- Phone pattern `(?<!\d)\+8801\d{9}(?!\d)`. -/
def phone_pat8 : Regex :=
  rcat [.nlb (.cls digitChar), lits "+8801", repN digitChar 9,
        .nla (.cls digitChar)]

/-- Phone pattern `(?<!\d)8801\d{9}(?!\d)`. -/
def phone_pat9 : Regex :=
  rcat [.nlb (.cls digitChar), lits "8801", repN digitChar 9,
        .nla (.cls digitChar)]

/-- Phone pattern `(?<!\d)[০১]\d{4}[-\s]?[০-৯\d]{6}(?!\d)`. -/
def phone_pat10 : Regex :=
  rcat [.nlb (.cls digitChar), .cls zeroOneBeng, repN digitChar 4,
        .ropt (.cls dashWs), repN digitChar 6, .nla (.cls digitChar)]

/-- Phone pattern `(?<!\d)[০১][০-৯\d]{9}(?!\d)`. -/
def phone_pat11 : Regex :=
  rcat [.nlb (.cls digitChar), .cls zeroOneBeng, repN digitChar 9,
        .nla (.cls digitChar)]

/-- Phone pattern `(?<!\d)[+৮৮][০১][০-৯\d]{9}(?!\d)`. -/
def phone_pat12 : Regex :=
  rcat [.nlb (.cls digitChar), .cls plusBeng8, .cls zeroOneBeng,
        repN digitChar 9, .nla (.cls digitChar)]

/-- Labelled contact pattern
`(?:Phone|Mobile|Contact|Tel|Call|ফোন|মোবাইল|কল|যোগাযোগ)[\s\:]+[\+\d\-\s০-৯]{8,}`. -/
def phone_pat13 : Regex :=
  rcat [ralts [litci "Phone", litci "Mobile", litci "Contact", litci "Tel",
               litci "Call", lits "ফোন", lits "মোবাইল", lits "কল",
               lits "যোগাযোগ"],
        .rep wsColon 1 none, .rep phoneCls 8 none]

/-- Phone pattern `(?<!\d)0\d{4}[-]0?\d{5,6}(?!\d)`. -/
def phone_pat14 : Regex :=
  rcat [.nlb (.cls digitChar), lits "0", repN digitChar 4, lits "-",
        .ropt (lits "0"), .rep digitChar 5 (some 6), .nla (.cls digitChar)]

/-- Phone pattern `(?<!\d)(?:013|014|015|016|017|018|019)\d{8}(?!\d)`. -/
def phone_pat15 : Regex :=
  rcat [.nlb (.cls digitChar),
        ralts [lits "013", lits "014", lits "015", lits "016", lits "017",
               lits "018", lits "019"],
        repN digitChar 8, .nla (.cls digitChar)]

/-- Phone pattern `(?<!\d)(?:০১৩|০১৪|০১৫|০১৬|০১৭|০১৮|০১৯)[০-৯]{8}(?!\d)`. -/
def phone_pat16 : Regex :=
  rcat [.nlb (.cls digitChar),
        ralts [lits "০১৩", lits "০১৪", lits "০১৫", lits "০১৬", lits "০১৭",
               lits "০১৮", lits "০১৯"],
        repN bengDigit 8, .nla (.cls digitChar)]

/-- URL pattern `(?:https?://|www\.)\S+\.(?:com|org|net|bd|edu|gov|info|biz)`. -/
def url_pat : Regex :=
  rcat [ralts [rcat [litci "http", .ropt (litci "s"), lits "://"],
               rcat [litci "www", lits "."]],
        .rep notWs 1 none, lits ".",
        ralts [litci "com", litci "org", litci "net", litci "bd", litci "edu",
               litci "gov", litci "info", litci "biz"]]

/-- Email pattern `[\w\-\.]+@[\w\-\.]+\.[a-zA-Z]{2,}`. -/
def email_pat : Regex :=
  rcat [.rep wordDashDot 1 none, lits "@", .rep wordDashDot 1 none, lits ".",
        .rep asciiAlpha 2 none]

/-- Social pattern
`(?:facebook\.com|fb\.com|twitter\.com|linkedin\.com|instagram\.com)/[\w\-\.]+`. -/
def social_pat : Regex :=
  rcat [ralts [litci "facebook.com", litci "fb.com", litci "twitter.com",
               litci "linkedin.com", litci "instagram.com"],
        lits "/", .rep wordDashDot 1 none]

/-- Messaging pattern `(?:whatsapp|viber|imo)[\s\:]+\d[\d\-\s]{9,}`. -/
def whatsapp_pat : Regex :=
  rcat [ralts [litci "whatsapp", litci "viber", litci "imo"],
        .rep wsColon 1 none, .cls digitChar, .rep digitDashWs 9 none]

/-- All contact patterns in the source's dictionary order: the sixteen phone
patterns, then url, email, social, whatsapp. -/
def contact_patterns : List Regex :=
  [phone_pat1, phone_pat2, phone_pat3, phone_pat4, phone_pat5, phone_pat6,
   phone_pat7, phone_pat8, phone_pat9, phone_pat10, phone_pat11, phone_pat12,
   phone_pat13, phone_pat14, phone_pat15, phone_pat16,
   url_pat, email_pat, social_pat, whatsapp_pat]

/-! Guard pattern families of the contact-detail pass. -/

/-- Date pattern `\d{1,2} sep \d{1,2} sep \d{2,4}` where `sep` is a slash or dash. -/
def date_pat1 : Regex :=
  rcat [.rep digitChar 1 (some 2), .cls slashDash, .rep digitChar 1 (some 2),
        .cls slashDash, .rep digitChar 2 (some 4)]

/-- Date pattern `\d{1,2}\s+(?:January|...|December)\s+\d{4}`. -/
def date_pat2 : Regex :=
  rcat [.rep digitChar 1 (some 2), .rep wsChar 1 none,
        ralts [litci "January", litci "February", litci "March", litci "April",
               litci "May", litci "June", litci "July", litci "August",
               litci "September", litci "October", litci "November",
               litci "December"],
        .rep wsChar 1 none, repN digitChar 4]

/-- Date pattern `\d{4} sep \d{1,2} sep \d{1,2}` where `sep` is a slash or dash. -/
def date_pat3 : Regex :=
  rcat [repN digitChar 4, .cls slashDash, .rep digitChar 1 (some 2),
        .cls slashDash, .rep digitChar 1 (some 2)]

/-- Date pattern `(?:19|20)\d{2} sep \d{1,2} sep \d{1,2}` where `sep` is a slash or dash. -/
def date_pat4 : Regex :=
  rcat [ralts [lits "19", lits "20"], repN digitChar 2, .cls slashDash,
        .rep digitChar 1 (some 2), .cls slashDash, .rep digitChar 1 (some 2)]

/-- Guard `is_date` of the contact-detail pass. -/
def is_date (t : List Char) : Bool :=
  [date_pat1, date_pat2, date_pat3, date_pat4].any (fun p => reSearch p t)

/-- ISBN pattern `ISBN\s*[:।-]?\s*(?:\d+[- ]?){4,}` (contact pass). -/
def cisbn_pat1 : Regex :=
  rcat [litci "ISBN", wsStar, .ropt (.cls colonDandaDash), wsStar,
        .repg (rcat [.rep digitChar 1 none, .ropt (.cls dashSpace)]) 4]

/-- ISBN pattern `ISBN\s*\d*\s*[:।-]?\s*(?:\d+[- ]?){4,}` (contact pass). -/
def cisbn_pat2 : Regex :=
  rcat [litci "ISBN", wsStar, .rep digitChar 0 none, wsStar,
        .ropt (.cls colonDandaDash), wsStar,
        .repg (rcat [.rep digitChar 1 none, .ropt (.cls dashSpace)]) 4]

/-- ISBN pattern `(?:\d{3}-\d{3}-\d{4}-\d{2}-\d{1})` (contact pass). -/
def cisbn_pat3 : Regex :=
  rcat [repN digitChar 3, lits "-", repN digitChar 3, lits "-",
        repN digitChar 4, lits "-", repN digitChar 2, lits "-",
        repN digitChar 1]

/-- ISBN pattern `(?:\d{3}-\d{1}-\d{4}-\d{4}-\d{1})` (contact pass). -/
def cisbn_pat4 : Regex :=
  rcat [repN digitChar 3, lits "-", repN digitChar 1, lits "-",
        repN digitChar 4, lits "-", repN digitChar 4, lits "-",
        repN digitChar 1]

/-- Guard `is_isbn` of the contact-detail pass. -/
def is_isbn_contact (t : List Char) : Bool :=
  [cisbn_pat1, cisbn_pat2, cisbn_pat3, cisbn_pat4].any (fun p => reSearch p t)

/-- Reference pattern `No\.\s*\d+/[A-Z]+/\d+/\d+` (searched case-sensitively). -/
def ref_pat1 : Regex :=
  rcat [lits "No.", wsStar, .rep digitChar 1 none, lits "/",
        .rep upperAZ 1 none, lits "/", .rep digitChar 1 none, lits "/",
        .rep digitChar 1 none]

/-- Reference pattern `[A-Z]+/\d+/[A-Z]+/\d+` (searched case-sensitively). -/
def ref_pat2 : Regex :=
  rcat [.rep upperAZ 1 none, lits "/", .rep digitChar 1 none, lits "/",
        .rep upperAZ 1 none, lits "/", .rep digitChar 1 none]

/-- Guard `is_reference_number` of the contact-detail pass. -/
def is_reference_number (t : List Char) : Bool :=
  [ref_pat1, ref_pat2].any (fun p => reSearch p t)

/-! The price-line pattern library (`_remove_price_related_lines`,
all compiled with `re.IGNORECASE`). -/

/-- Lookbehind body `ISBN\s*[:।-]\s*` shared by every price pattern. -/
def isbn_lb1 : Regex := rcat [litci "ISBN", wsStar, .cls colonDandaDash, wsStar]

/-- Lookbehind body `ISBN\s*\d*\s*[:।-]\s*` shared by every price pattern. -/
def isbn_lb2 : Regex :=
  rcat [litci "ISBN", wsStar, .rep digitChar 0 none, wsStar,
        .cls colonDandaDash, wsStar]

/-- Prefix `(?<!ISBN\s*[:।-]\s*)(?<!ISBN\s*\d*\s*[:।-]\s*)` attached to every
price pattern. -/
def lbp (r : Regex) : Regex := .seq (.nlb isbn_lb1) (.seq (.nlb isbn_lb2) r)

/-- Trailing guard `(?!\s*ISBN)` used by several price patterns. -/
def nlaWsIsbn : Regex := .nla (rcat [wsStar, litci "ISBN"])

/-- Price pattern for `মূল্য\s*[:।].*`. -/
def price_pat1 : Regex :=
  lbp (rcat [lits "মূল্য", wsStar, .cls colonDanda, dotStar])

/-- Price pattern for `g~j¨\s*[:।].*` (মূল্য in the legacy encoding). -/
def price_pat2 : Regex :=
  lbp (rcat [litci "g~j¨", wsStar, .cls colonDanda, dotStar])

/-- Price pattern for `দাম\s*[:।].*`. -/
def price_pat3 : Regex :=
  lbp (rcat [lits "দাম", wsStar, .cls colonDanda, dotStar])

/-- Price pattern for the legacy-encoded `দাম` line (backquote, v, g). -/
def price_pat4 : Regex :=
  lbp (rcat [litci "\x60vg", wsStar, .cls colonDanda, dotStar])

/-- Price pattern for `টাকা\s*মাত্র`. -/
def price_pat5 : Regex :=
  lbp (rcat [lits "টাকা", wsStar, lits "মাত্র"])

/-- Price pattern for `UvKv\s*gvÎ` (টাকা মাত্র in the legacy encoding). -/
def price_pat6 : Regex :=
  lbp (rcat [litci "UvKv", wsStar, litci "gvÎ"])

/-- Price pattern for `মূল্যঃ`. -/
def price_pat7 : Regex := lbp (lits "মূল্যঃ")

/-- Price pattern for `g~j¨t` (মূল্যঃ in the legacy encoding). -/
def price_pat8 : Regex := lbp (litci "g~j¨t")

/-- Price pattern for `Price\s*:(?!.*ISBN).*`. -/
def price_pat9 : Regex :=
  lbp (rcat [litci "Price", wsStar, lits ":",
             .nla (rcat [dotStar, litci "ISBN"]), dotStar])

/-- Price pattern for `\d+\s*টাকা(?!\s*ISBN)`. -/
def price_pat10 : Regex :=
  lbp (rcat [.rep digitChar 1 none, wsStar, lits "টাকা", nlaWsIsbn])

/-- Price pattern for `\d+\s*UvKv(?!\s*ISBN)`. -/
def price_pat11 : Regex :=
  lbp (rcat [.rep digitChar 1 none, wsStar, litci "UvKv", nlaWsIsbn])

/-- Price pattern for `Taka\s*:(?!.*ISBN).*`. -/
def price_pat12 : Regex :=
  lbp (rcat [litci "Taka", wsStar, lits ":",
             .nla (rcat [dotStar, litci "ISBN"]), dotStar])

/-- Price pattern for `(?:TK|Tk)\s*\.?\s*\d+(?!\s*ISBN)`. -/
def price_pat13 : Regex :=
  lbp (rcat [ralts [litci "TK", litci "Tk"], wsStar, .ropt (lits "."), wsStar,
             .rep digitChar 1 none, nlaWsIsbn])

/-- Price pattern for `৳\s*\d+(?!\s*ISBN)`. -/
def price_pat14 : Regex :=
  lbp (rcat [lits "৳", wsStar, .rep digitChar 1 none, nlaWsIsbn])

/-- Price pattern for `\.{3,}\s*\d+\s*(?:টাকা|UvKv|Taka|TK|Tk)?(?!\s*ISBN)`. -/
def price_pat15 : Regex :=
  lbp (rcat [.rep (fun c => c = '.') 3 none, wsStar, .rep digitChar 1 none,
             wsStar,
             .ropt (ralts [lits "টাকা", litci "UvKv", litci "Taka",
                           litci "TK", litci "Tk"]),
             nlaWsIsbn])

/-- All fifteen price patterns in source order. -/
def price_patterns : List Regex :=
  [price_pat1, price_pat2, price_pat3, price_pat4, price_pat5, price_pat6,
   price_pat7, price_pat8, price_pat9, price_pat10, price_pat11, price_pat12,
   price_pat13, price_pat14, price_pat15]

/-- ISBN pattern `ISBN\s*[:।-]?\s*\d[\d\-]*` (price pass). -/
def pisbn_pat1 : Regex :=
  rcat [litci "ISBN", wsStar, .ropt (.cls colonDandaDash), wsStar,
        .cls digitChar, .rep digitDash 0 none]

/-- ISBN pattern `ISBN\s*[:।-]?\s*\d[\d\s\-]*\d` (price pass). -/
def pisbn_pat2 : Regex :=
  rcat [litci "ISBN", wsStar, .ropt (.cls colonDandaDash), wsStar,
        .cls digitChar, .rep digitDashWs 0 none, .cls digitChar]

/-- ISBN pattern `ISBN\s*\d*\s*[:।-]?\s*\d[\d\-]*` (price pass). -/
def pisbn_pat3 : Regex :=
  rcat [litci "ISBN", wsStar, .rep digitChar 0 none, wsStar,
        .ropt (.cls colonDandaDash), wsStar, .cls digitChar,
        .rep digitDash 0 none]

/-- Guard `is_isbn` of the price-line pass. -/
def is_isbn_price (t : List Char) : Bool :=
  [pisbn_pat1, pisbn_pat2, pisbn_pat3].any (fun p => reSearch p t)

/-! The script classifier `_detect_script`. -/

/-- The three script classes. -/
inductive Script where
  | bengali : Script
  | arabic : Script
  | english : Script
deriving DecidableEq, Repr

/-- Membership in the `sutonnymj_chars` set, restricted to its single-character
elements: ASCII letters, the listed punctuation/symbol characters
(U+2020 †, U+0160 Š, U+2021 ‡, U+00FF ÿ, U+00A8 ¨, U+00A9 ©, U+00AE ®,
U+00AF ¯, and U+00B0 - U+00BF), and U+00C8 - U+00DF except U+00D1 (whose slot
in the source holds a four-replacement-character string).  The set's
multi-character entries (`ww`, `vv`, `šš`, `††`, `‡‡`, `ii`, `yy` and that
replacement string) can never equal a single character of the text, so they
contribute nothing to the per-character membership test. -/
def sutonnymjChar (c : Char) : Bool :=
  let n := c.toNat
  asciiAlpha c ||
  n = 0x2020 || n = 0x160 || n = 0x2021 || n = 0xFF ||
  n = 0xA8 || n = 0xA9 || n = 0xAE || n = 0xAF ||
  (0xB0 ≤ n && n ≤ 0xBF) ||
  (0xC8 ≤ n && n ≤ 0xDF && n ≠ 0xD1)

/-- The marker characters `['†', 'Š', '‡', 'ÿ', '©', '®']`. -/
def sutonnymjMarkers : List Char := ['†', 'Š', '‡', 'ÿ', '©', '®']

/-- Character of the Unicode Bengali block or a joiner (ZWNJ/ZWJ), the class
of the `bengali_unicode` search pattern. -/
def bengaliUnicodeChar (c : Char) : Bool :=
  bengaliBlock c || c.toNat = 0x200C || c.toNat = 0x200D

/-- Character of the Arabic blocks searched by `arabic_pattern`. -/
def arabicChar (c : Char) : Bool :=
  let n := c.toNat
  (0x600 ≤ n && n ≤ 0x6FF) || (0x750 ≤ n && n ≤ 0x77F) ||
  (0x8A0 ≤ n && n ≤ 0x8FF) || (0xFB50 ≤ n && n ≤ 0xFDFF) ||
  (0xFE70 ≤ n && n ≤ 0xFEFF)

/-- The classifier `_detect_script`.  A search for a single-character-class
pattern succeeds exactly when some character of the text is in the class, and
the anchored prose pattern `^[...]*$` matches exactly when every character is
in its class, so those regex calls are embedded as `List.any` / `List.all`.
The source's percentage test `(count / total) * 100 > 10` is embedded as the
exactly equivalent integer comparison `100 * count > 10 * total` (for a
positive total); the rational-fraction form is stated and proved equivalent in
the claim C5 theorem below. -/
def detect_script (t : List Char) : Script :=
  let bengali_char_count := t.countP sutonnymjChar
  let total_length := (pyStrip t).length
  if total_length = 0 then .english
  else if (sutonnymjMarkers.any fun m => t.contains m) ||
      100 * bengali_char_count > 10 * total_length then .bengali
  else if t.any bengaliUnicodeChar then .bengali
  else if t.any arabicChar then .arabic
  else if t.all engProse then .english
  else if 0 < bengali_char_count then .bengali
  else .english

/-! The document model: the slice of the provider's document tree that the
pipeline reads or mutates. -/

/-- A `wp:positionH` element of a floating-image anchor: its `relativeFrom`
attribute and the text of its `wp:align` child when that child exists. -/
structure PosH where
  relativeFrom : Option String
  align : Option String
deriving DecidableEq, Repr

/-- Placement wrapper kind of a drawing: `wp:inline` or `wp:anchor`. -/
inductive WrapKind where
  | inline : WrapKind
  | anchor : WrapKind
deriving DecidableEq, Repr

/-- A `w:drawing` inside a run: its wrapper kind, the anchor's `wp:positionH`
element (if any), and the number of `pic:pic` descendants. -/
structure Drawing where
  kind : WrapKind
  posH : Option PosH
  picCount : Nat
deriving DecidableEq, Repr

/-- A run: its text, its recorded font name (`None` when no explicit font is
set), and its drawings. -/
structure Run where
  text : List Char
  fontName : Option String
  drawings : List Drawing
deriving DecidableEq, Repr

/-- A `w:spacing` element among a paragraph's low-level formatting children:
the two attributes the code writes plus the before/after attributes it leaves
alone. -/
structure SpacingElem where
  line : Option String
  lineRule : Option String
  beforeAttr : Option String
  afterAttr : Option String
deriving DecidableEq, Repr

/-- A paragraph: runs, alignment, semantic line spacing, and its low-level
`w:spacing` child (the schema allows at most one). -/
structure Paragraph where
  runs : List Run
  alignment : Option String
  lineSpacing : Option ℚ
  spacingElem : Option SpacingElem
deriving DecidableEq, Repr

/-- A table cell owns a paragraph sequence. -/
abbrev Cell := List Paragraph

/-- A table row is a sequence of cells. -/
abbrev TblRow := List Cell

/-- A table is a sequence of rows. -/
abbrev Table := List TblRow

/-- A header or footer: linked-to-previous flag and owned paragraphs. -/
structure HdrFtr where
  isLinkedToPrevious : Bool
  paragraphs : List Paragraph
deriving DecidableEq, Repr

/-- A `w:pgSz` element: the three attributes the code writes. -/
structure PgSz where
  orient : Option String
  w : Option String
  h : Option String
deriving DecidableEq, Repr

/-- A per-column `w:col` override entry inside `w:cols`. -/
structure ColEntry where
  w : Option String
  space : Option String
deriving DecidableEq, Repr

/-- A `w:cols` element: declared count, inter-column spacing attribute, and
per-column override children. -/
structure Cols where
  num : Option String
  space : Option String
  children : List ColEntry
deriving DecidableEq, Repr

/-- A section: page size element, margins (EMU), header/footer, page-border
presence, column configuration, and counts of the watermark artifact elements
the stripper removes. -/
structure Section where
  pgSz : Option PgSz
  leftMargin : Int
  rightMargin : Int
  topMargin : Int
  bottomMargin : Int
  header : HdrFtr
  footer : HdrFtr
  pgBorders : Bool
  cols : Option Cols
  vmlShapes : Nat
  picts : Nat
  headerReferences : Nat
  documentBackgrounds : Nat
deriving DecidableEq, Repr

/-- A style: whether it has a paragraph-formatting facet, and its
line-spacing value. -/
structure Style where
  hasParagraphFormat : Bool
  lineSpacing : Option ℚ
deriving DecidableEq, Repr

/-- A document: body paragraphs, tables, sections, styles. -/
structure Doc where
  paragraphs : List Paragraph
  tables : List Table
  sections : List Section
  styles : List Style
deriving DecidableEq, Repr

/-- The `paragraph.text`: the concatenation of the run texts. -/
def paraText (p : Paragraph) : List Char := (p.runs.map Run.text).flatten

/-! Font substitution (`_check_for_nirmala_ui`, `_process_fonts`). -/

/-- The `_check_for_nirmala_ui`: true iff some run of the main body or of a table
cell records the font name `Nirmala UI` (the early returns of the source make
it exactly an existence check). -/
def check_for_nirmala_ui (doc : Doc) : Bool :=
  doc.paragraphs.any (fun p => p.runs.any fun r => r.fontName = some "Nirmala UI") ||
    doc.tables.any fun tbl => tbl.any fun row => row.any fun cell =>
      cell.any fun p => p.runs.any fun r => r.fontName = some "Nirmala UI"

/-- Python `str.lower()` as used on font names, via the same case folding as
`re.IGNORECASE` (ASCII and Latin-1 upper-case letters). -/
def pyLower (s : String) : String := String.mk (s.data.map foldCI)

/-- The `not run.text.strip()`: the run's text is empty or whitespace-only. -/
def blankText (t : List Char) : Bool := (pyStrip t).isEmpty

/-- The per-run body of `_process_paragraph_fonts`: skip blank runs, classify
the text, then rewrite the font name according to the Nirmala-UI flag and the
skip lists of the source (only the font-name attribute is touched). -/
def process_run_font (nirmala : Bool) (r : Run) : Run :=
  if blankText r.text then r
  else
    let script := detect_script r.text
    let current := r.fontName.getD ""
    if nirmala then
      match script with
      | .bengali | .english =>
          if current ≠ "Kalpurush" then { r with fontName := some "Kalpurush" }
          else r
      | .arabic =>
          if ¬ (["al majeed quranic", "almajeedquranic"].contains
              (pyLower current)) then
            { r with fontName := some "Al Majeed Quranic" }
          else r
    else
      match script with
      | .bengali =>
          if ¬ (["sutonnymj", "sutonny mj"].contains (pyLower current)) then
            { r with fontName := some "SutonnyMJ" }
          else r
      | .english =>
          if ¬ (["times new roman", "timesnewroman"].contains
              (pyLower current)) then
            { r with fontName := some "Times New Roman" }
          else r
      | .arabic =>
          if ¬ (["al majeed quranic", "almajeedquranic"].contains
              (pyLower current)) then
            { r with fontName := some "Al Majeed Quranic" }
          else r

/-- The `_process_paragraph_fonts` over one paragraph. -/
def process_paragraph_fonts (nirmala : Bool) (p : Paragraph) : Paragraph :=
  { p with runs := p.runs.map (process_run_font nirmala) }

/-- The `_process_fonts`: body paragraphs and every table-cell paragraph. -/
def process_fonts (nirmala : Bool) (doc : Doc) : Doc :=
  { doc with
    paragraphs := doc.paragraphs.map (process_paragraph_fonts nirmala)
    tables := doc.tables.map fun tbl => tbl.map fun row => row.map fun cell =>
      cell.map (process_paragraph_fonts nirmala) }

/-! The contact-detail pass (`_remove_contact_details`). -/

/-- The three guard predicates combined, as tested by both
`contains_contact_info` and `remove_contact_info`. -/
def guardText (t : List Char) : Bool :=
  is_isbn_contact t || is_date t || is_reference_number t

/-- The `contains_contact_info`: guarded text never counts as contact info;
otherwise some contact pattern must be found in the text. -/
def contains_contact_info (t : List Char) : Bool :=
  if guardText t then false
  else contact_patterns.any fun p => reSearch p t

/-- One run text through all contact patterns in order: each pattern's matches
are deleted in reverse position order, and the flag records whether any
pattern matched (the source's `has_changes` contribution of this run). -/
def scrubText (t : List Char) : List Char × Bool :=
  contact_patterns.foldl
    (fun acc p =>
      let ms := findIter p acc.1
      (removeSpansReversed acc.1 ms, acc.2 || !ms.isEmpty))
    (t, false)

/-- The run loop of `remove_contact_info`, threading the paragraph-level
`has_changes` flag: guarded runs are skipped; other runs are scrubbed, and a
run's text is assigned `new_text.strip()` whenever the flag is set by the time
the run is processed. -/
def remove_contact_runs : List Run → Bool → List Run
  | [], _ => []
  | r :: rs, hasChanges =>
      if guardText r.text then r :: remove_contact_runs rs hasChanges
      else
        let res := scrubText r.text
        let hc := hasChanges || res.2
        let r2 := if hc then { r with text := pyStrip res.1 } else r
        r2 :: remove_contact_runs rs hc

/-- The `remove_contact_info`: if any run is guarded the paragraph is returned
untouched; otherwise the run loop is applied. -/
def remove_contact_info (p : Paragraph) : Paragraph :=
  if p.runs.any (fun r => guardText r.text) then p
  else { p with runs := remove_contact_runs p.runs false }

/-- The per-paragraph step of `_remove_contact_details`: detection on the
paragraph's full text, then in-place removal. -/
def contact_map_para (p : Paragraph) : Paragraph :=
  if contains_contact_info (paraText p) then remove_contact_info p else p

/-- The `_remove_contact_details` over the whole document (body paragraphs and
every table-cell paragraph). -/
def remove_contact_details (doc : Doc) : Doc :=
  { doc with
    paragraphs := doc.paragraphs.map contact_map_para
    tables := doc.tables.map fun tbl => tbl.map fun row => row.map fun cell =>
      cell.map contact_map_para }

/-! The price-line pass (`_remove_price_related_lines`). -/

/-- The `contains_price_info`: text containing the price pass's ISBN pattern is
exempt; otherwise some price pattern must be found. -/
def contains_price_info (t : List Char) : Bool :=
  if is_isbn_price t then false
  else price_patterns.any fun p => reSearch p t

/-- The `_remove_price_related_lines`: the mark-then-detach loops keep exactly the
paragraphs whose text is not price-related, in order, in the body and in every
table cell. -/
def remove_price_related_lines (doc : Doc) : Doc :=
  { doc with
    paragraphs := doc.paragraphs.filter fun p => !contains_price_info (paraText p)
    tables := doc.tables.map fun tbl => tbl.map fun row => row.map fun cell =>
      cell.filter fun p => !contains_price_info (paraText p) }

/-! Per-section geometry, furniture and watermark handling. -/

/-- The `Inches(1)` in EMU. -/
def inchEmu : Int := 914400

/-- The `_set_portrait_orientation`: create the `w:pgSz` element if absent and set
its orientation and the fixed A4 portrait width/height (twips). -/
def set_portrait_orientation (s : Section) : Section :=
  { s with pgSz := some { orient := some "portrait",
                          w := some "11906", h := some "16838" } }

/-- Python `int()` on an attribute string (optional sign, surrounding
whitespace, ASCII or Bengali digits); `none` when `int` would raise. -/
def pyIntParse (a : String) : Option Int :=
  let t := (a.data.dropWhile wsChar).reverse.dropWhile wsChar |>.reverse
  let digitsVal : List Char → Option Int := fun ds =>
    if ds ≠ [] && ds.all digitChar then
      some (ds.foldl (fun acc c =>
        acc * 10 + (if digit09 c then (c.toNat - 0x30 : Int)
                    else (c.toNat - 0x9E6 : Int))) 0)
    else none
  match t with
  | '-' :: ds => (digitsVal ds).map (fun v => -v)
  | '+' :: ds => digitsVal ds
  | ds => digitsVal ds

/-- The declared column count as the code reads it:
`int(cols.get(qn('w:num'))) if cols.get(qn('w:num')) else 1` — a missing or
falsy (empty) attribute defaults to one column, an unparseable one raises
(`none`). -/
def declared_col_count (cols : Cols) : Option Int :=
  match cols.num with
  | none => some 1
  | some a => if a = "" then some 1 else pyIntParse a

/-- The spacing attribute after conversion:
`if cols.get(qn('w:space')): cols.set(qn('w:space'), '0')` — set to `0` only
when the attribute is present and truthy (non-empty). -/
def zeroed_col_space : Option String → Option String
  | none => none
  | some sp => if sp = "" then some sp else some "0"

/-- The `_convert_to_single_column`: with no `w:cols` element the indexing raises
and the handler leaves the section unchanged, as it does when `int()` raises.
Only a declared count above one triggers the rewrite: count set to `1`, the
spacing attribute zeroed when present and truthy, all per-column children
removed. -/
def convert_to_single_column (s : Section) : Section :=
  match s.cols with
  | none => s
  | some cols =>
      match declared_col_count cols with
      | none => s
      | some n =>
          if 1 < n then
            let newCols : Cols :=
              { num := some "1", space := zeroed_col_space cols.space,
                children := [] }
            { s with cols := some newCols }
          else s

/-- The `_remove_watermark` body.  Only two of its artifact removals take
effect: the VML-shape search uses Clark notation and succeeds, and
`remove_all('w:documentBackground')` resolves its prefix internally; the
`findall('.//w:pict')` and `findall('.//w:headerReference')` calls pass a
prefixed path with no namespace map, raise a path error that the surrounding
bare `except` swallows, and remove nothing, so those elements stay in place;
the `w:background` branch is gated on a helper the section-properties object
does not expose and never runs. -/
def remove_watermark (s : Section) : Section :=
  { s with vmlShapes := 0, documentBackgrounds := 0 }

/-- The per-section body of `process`: orientation and page size, one-inch
margins, header and footer linked to previous with their owned paragraphs
deleted, page borders removed, column conversion, watermark removal. -/
def process_section (s : Section) : Section :=
  let s1 := set_portrait_orientation s
  let s2 := { s1 with leftMargin := inchEmu, rightMargin := inchEmu,
                      topMargin := inchEmu, bottomMargin := inchEmu }
  let s3 := { s2 with header := { isLinkedToPrevious := true, paragraphs := [] } }
  let s4 := { s3 with footer := { isLinkedToPrevious := true, paragraphs := [] } }
  let s5 := { s4 with pgBorders := false }
  remove_watermark (convert_to_single_column s5)

/-! Line spacing (`_set_line_spacing`). -/

/-- The target line-spacing multiple, `1.15`. -/
def targetLineSpacing : ℚ := 23 / 20

/-- The `_apply_spacing_to_paragraph`: set the semantic attribute and write
`w:line="276"` (`int(240 * 1.15)` evaluates to `276`), `w:lineRule="auto"` on
the `w:spacing` child, creating it when absent. -/
def apply_spacing_to_paragraph (p : Paragraph) : Paragraph :=
  let e : SpacingElem :=
    match p.spacingElem with
    | none => { line := some "276", lineRule := some "auto",
                beforeAttr := none, afterAttr := none }
    | some e0 => { e0 with line := some "276", lineRule := some "auto" }
  { p with lineSpacing := some targetLineSpacing, spacingElem := some e }

/-- The `_set_line_spacing`: styles with a paragraph-formatting facet, all body
paragraphs, all table-cell paragraphs, and all header/footer paragraphs. -/
def set_line_spacing (doc : Doc) : Doc :=
  { doc with
    styles := doc.styles.map fun st =>
      if st.hasParagraphFormat then { st with lineSpacing := some targetLineSpacing }
      else st
    paragraphs := doc.paragraphs.map apply_spacing_to_paragraph
    tables := doc.tables.map fun tbl => tbl.map fun row => row.map fun cell =>
      cell.map apply_spacing_to_paragraph
    sections := doc.sections.map fun s =>
      { s with
        header := { s.header with
                    paragraphs := s.header.paragraphs.map apply_spacing_to_paragraph }
        footer := { s.footer with
                    paragraphs := s.footer.paragraphs.map apply_spacing_to_paragraph } } }

/-! Image handling (`_process_images`). -/

/-- The qualified tag of the element reached by `pic.getparent().getparent()`.
In WordprocessingML a `pic:pic` sits at
`w:drawing / (wp:inline | wp:anchor) / a:graphic / a:graphicData / pic:pic`,
so two `getparent()` steps from the picture land on the `a:graphic` element,
whose lxml tag is this constant. -/
def picGrandparentTag : String :=
  "\x7bhttp://schemas.openxmlformats.org/drawingml/2006/main\x7dgraphic"

/-- The `str.endswith` on tag names, via the character list (so that it reduces by
computation). -/
def tagEndsWith (s suffix : String) : Bool :=
  suffix.data.isSuffixOf s.data

/-- The per-picture body of `_process_paragraph_images`: branch on whether the
grandparent element's tag ends in `}inline` or `}anchor`; in the anchor branch
set `relativeFrom` to `margin` and the `wp:align` child's text to `center`
when that child exists. -/
def process_pic (d : Drawing) : Drawing :=
  if tagEndsWith picGrandparentTag "\x7dinline" then d
  else if tagEndsWith picGrandparentTag "\x7danchor" then
    match d.posH with
    | none => d
    | some ph =>
        let newAlign : Option String :=
          match ph.align with
          | none => none
          | some _ => some "center"
        let ph2 : PosH :=
          { ph with relativeFrom := some "margin", align := newAlign }
        { d with posH := some ph2 }
  else d

/-- The `_has_image`: some run of the paragraph contains a `pic:pic` element. -/
def has_image (p : Paragraph) : Bool :=
  p.runs.any fun r => r.drawings.any fun d => 0 < d.picCount

/-- The `_process_paragraph_images`: center the paragraph and run the per-picture
body once for each picture of each drawing. -/
def process_paragraph_images (p : Paragraph) : Paragraph :=
  { p with alignment := some "center"
           runs := p.runs.map fun r =>
             { r with drawings := r.drawings.map fun d =>
                 process_pic^[d.picCount] d } }

/-- The per-paragraph step of `_process_images`: only image-bearing
paragraphs are processed. -/
def imgStep (p : Paragraph) : Paragraph :=
  if has_image p then process_paragraph_images p else p

/-- The `_process_images`: process every image-bearing paragraph in the body and
in every table cell, incrementing the reported counter once per such
paragraph. -/
def process_images (doc : Doc) : Doc × Nat :=
  let bodyCount := doc.paragraphs.countP has_image
  let tableCount :=
    (doc.tables.map fun tbl =>
      (tbl.map fun row => (row.map fun cell => cell.countP has_image).sum).sum).sum
  ({ doc with
     paragraphs := doc.paragraphs.map imgStep
     tables := doc.tables.map fun tbl => tbl.map fun row => row.map fun cell =>
       cell.map imgStep },
   bodyCount + tableCount)

/-- The whole `process` pipeline on a loaded document, in source order; the
`Nat` component is the reported image count. -/
def pipeline (doc : Doc) : Doc × Nat :=
  let nirmala := check_for_nirmala_ui doc
  let d1 := process_fonts nirmala doc
  let d2 := remove_contact_details d1
  let d3 := remove_price_related_lines d2
  let d4 := { d3 with sections := d3.sections.map process_section }
  let d5 := set_line_spacing d4
  process_images d5

/-! Concrete builders used by witnesses and counterexamples. -/

/-- A plain run with the given text. -/
def mkRun (t : String) : Run :=
  { text := t.data, fontName := none, drawings := [] }

/-- A plain paragraph whose runs carry the given texts. -/
def mkPara (ts : List String) : Paragraph :=
  { runs := ts.map mkRun, alignment := none, lineSpacing := none,
    spacingElem := none }

/-- A document consisting only of the given body paragraphs. -/
def mkDoc (ps : List Paragraph) : Doc :=
  { paragraphs := ps, tables := [], sections := [], styles := [] }

/-! Claim C2. -/

/-- C2: the price-line pass removes, from the body and from every table cell,
exactly the paragraphs whose concatenated text contains price-related content
(some price pattern matches and the price pass's ISBN guard does not fire),
leaving the other paragraphs in place in order; in particular the standalone
paragraph with text «মূল্যঃ ১৫০ টাকা মাত্র» is deleted entirely. -/
theorem price_pass_removes_matching_paragraphs_entirely :
    (∀ doc : Doc,
      (remove_price_related_lines doc).paragraphs =
        doc.paragraphs.filter (fun p => !contains_price_info (paraText p)) ∧
      (remove_price_related_lines doc).tables =
        doc.tables.map fun tbl => tbl.map fun row => row.map fun cell =>
          cell.filter fun p => !contains_price_info (paraText p)) ∧
    (∀ t : List Char, contains_price_info t =
        (!is_isbn_price t && price_patterns.any fun p => reSearch p t)) ∧
    contains_price_info (paraText (mkPara ["মূল্যঃ ১৫০ টাকা মাত্র"])) = true ∧
    (remove_price_related_lines
        (mkDoc [mkPara ["মূল্যঃ ১৫০ টাকা মাত্র"]])).paragraphs = [] := by
  refine ⟨fun doc => ⟨rfl, rfl⟩, fun t => ?_, by rfl, by rfl⟩
  unfold contains_price_info
  cases h : is_isbn_price t <;> simp [h]

/-! Claim C1 (corrected). -/

/-- C1 counterexample: the paragraph with text "Price: 01/01/2020" matches a
date guard pattern, yet the price-line pass removes it — the date and
reference-number guards do not protect a paragraph from the price pass. -/
theorem guard_does_not_protect_price_pass_cex :
    is_date (paraText (mkPara ["Price: 01/01/2020"])) = true ∧
    (remove_price_related_lines
        (mkDoc [mkPara ["Price: 01/01/2020"]])).paragraphs = [] := by
  exact ⟨by rfl, by rfl⟩

/-- C1 amended: a paragraph matching an ISBN, date or reference-number guard
pattern is never modified by the contact-detail pass (the guard short-circuits
detection, so neither run texts nor the paragraph itself change); the
price-line pass is protected only by its own ISBN check, and a paragraph whose
text matches that ISBN pattern is kept in place. -/
theorem guards_protect_contact_pass_and_isbn_protects_price_pass :
    (∀ p : Paragraph, guardText (paraText p) = true → contact_map_para p = p) ∧
    (∀ (doc : Doc) (p : Paragraph), is_isbn_price (paraText p) = true →
       p ∈ doc.paragraphs → p ∈ (remove_price_related_lines doc).paragraphs) := by
  constructor
  · intro p h
    unfold contact_map_para contains_contact_info
    simp [h]
  · intro doc p h hp
    unfold remove_price_related_lines
    exact List.mem_filter.mpr ⟨hp, by simp [contains_price_info, h]⟩

/-- Witness for the amended C1 theorem at the spec's own example text. -/
theorem guards_protect_contact_pass_and_isbn_protects_price_pass_witness :
    contact_map_para (mkPara ["ISBN: 978-3-16-148410-0 Phone: 01712345678"]) =
      mkPara ["ISBN: 978-3-16-148410-0 Phone: 01712345678"] ∧
    mkPara ["ISBN: 978-3-16-148410-0"] ∈
      (remove_price_related_lines
        (mkDoc [mkPara ["ISBN: 978-3-16-148410-0"]])).paragraphs :=
  ⟨guards_protect_contact_pass_and_isbn_protects_price_pass.1 _ (by rfl),
   guards_protect_contact_pass_and_isbn_protects_price_pass.2 _ _ (by rfl)
     (by simp [mkDoc])⟩

/-! Helper lemmas about the scrubbing fold. -/

/-- Deleting an empty span list leaves the text unchanged. -/
theorem removeSpansReversed_nil (t : List Char) : removeSpansReversed t [] = t :=
  rfl

/-- Fold invariant: if no pattern of the list matches the text, the scrubbing
fold returns the text and flag unchanged. -/
theorem scrub_fold_no_match : ∀ (pats : List Regex) (t : List Char) (b : Bool),
    (∀ pat ∈ pats, findIter pat t = []) →
    pats.foldl (fun acc p =>
      let ms := findIter p acc.1
      (removeSpansReversed acc.1 ms, acc.2 || !ms.isEmpty)) (t, b) = (t, b)
  | [], _, _, _ => rfl
  | p :: ps, t, b, h => by
      have hp : findIter p t = [] := h p (List.mem_cons_self p ps)
      have ih := scrub_fold_no_match ps t b
        (fun q hq => h q (List.mem_cons_of_mem p hq))
      simpa [hp, removeSpansReversed] using ih

/-- If no contact pattern matches a run's text, scrubbing it is the identity
and records no change. -/
theorem scrubText_no_match (t : List Char)
    (h : ∀ pat ∈ contact_patterns, findIter pat t = []) :
    scrubText t = (t, false) :=
  scrub_fold_no_match contact_patterns t false h

/-- If no contact pattern matches any run's text, the run loop started with a
clear flag leaves every run unchanged. -/
theorem remove_contact_runs_no_match : ∀ (runs : List Run),
    (∀ r ∈ runs, ∀ pat ∈ contact_patterns, findIter pat r.text = []) →
    remove_contact_runs runs false = runs
  | [], _ => rfl
  | r :: rs, h => by
      have hr : scrubText r.text = (r.text, false) :=
        scrubText_no_match _ (h r (List.mem_cons_self r rs))
      have ih := remove_contact_runs_no_match rs
        (fun q hq => h q (List.mem_cons_of_mem r hq))
      unfold remove_contact_runs
      by_cases hg : guardText r.text
      · simp [hg, ih]
      · simp [hg, hr, ih]

/-! Claim C10. -/

/-- C10: detection works on the paragraph's concatenated text while deletion
re-applies each pattern to each run's text individually, so a paragraph whose
contact-info match spans a run boundary (no single run's text matches any
pattern) is left with all its runs' texts unchanged by the contact pass, even
when it is detected. -/
theorem contact_detection_and_removal_granularity (p : Paragraph)
    (hdet : contains_contact_info (paraText p) = true)
    (hruns : ∀ r ∈ p.runs, ∀ pat ∈ contact_patterns, findIter pat r.text = []) :
    contact_map_para p = p := by
  unfold contact_map_para
  rw [hdet]
  unfold remove_contact_info
  by_cases hg : p.runs.any (fun r => guardText r.text)
  · simp [hg]
  · simp only [hg, Bool.false_eq_true, if_true, if_false,
      remove_contact_runs_no_match p.runs hruns]

/-- Witness for C10: the paragraph split as «ফোন: 0171» / «2-345678» is
detected (its full text contains a phone number) but no single run matches any
pattern, and the contact pass leaves it unchanged. -/
theorem contact_detection_and_removal_granularity_witness :
    contains_contact_info (paraText (mkPara ["ফোন: 0171", "2-345678"])) = true ∧
    contact_map_para (mkPara ["ফোন: 0171", "2-345678"]) =
      mkPara ["ফোন: 0171", "2-345678"] :=
  ⟨by rfl, contact_detection_and_removal_granularity _ (by rfl) (by decide)⟩

/-! Claim C3 (corrected). -/

/-- Whether the contact scrubber records a change for this run: the run is
unguarded and some contact pattern matched its (evolving) text. -/
def run_was_edited (r : Run) : Bool :=
  !guardText r.text && (scrubText r.text).2

/-- Characterization of the run loop: the i-th output run is the i-th input
run, kept verbatim when guarded; otherwise scrubbed, and assigned the trimmed
scrubbed text exactly when the incoming flag, an edit in some earlier run, or
an edit in this run has set `has_changes`. -/
theorem remove_contact_runs_getElem : ∀ (runs : List Run) (hc : Bool) (i : Nat),
    (remove_contact_runs runs hc)[i]? = (runs[i]?).map (fun r =>
      if guardText r.text then r
      else if hc || (runs.take i).any run_was_edited || (scrubText r.text).2 then
        { r with text := pyStrip (scrubText r.text).1 }
      else r)
  | [], hc, i => by simp [remove_contact_runs]
  | r :: rs, hc, i => by
      unfold remove_contact_runs
      by_cases hg : guardText r.text
      · cases i with
        | zero => simp [hg]
        | succ n =>
            have ih := remove_contact_runs_getElem rs hc n
            simp [hg, ih, run_was_edited]
      · cases i with
        | zero => simp [hg]
        | succ n =>
            have ih := remove_contact_runs_getElem rs (hc || (scrubText r.text).2) n
            simp only [hg, Bool.false_eq_true, if_false, List.getElem?_cons_succ,
              List.take_succ_cons, List.any_cons, run_was_edited, Bool.not_false,
              Bool.true_and, ih]
            congr 1
            funext q
            congr 1
            simp [Bool.or_assoc, Bool.or_comm, Bool.or_left_comm]

/-- C3 amended: in an unguarded detected paragraph every contact-pattern span
is deleted from each run's text (patterns applied in order, matches removed in
reverse position order) and the text trimmed; a run with no matching span
keeps its text unchanged only while no earlier run was edited — once some
earlier run was edited, later runs are assigned their trimmed text as well.
The spec's scenario run «আমার মোবাইল নম্বর ফোন: 01712-345678» loses the
phone-number substring and keeps the preceding words. -/
theorem contact_removal_per_run_with_trim_propagation :
    (∀ (p : Paragraph) (i : Nat),
      (p.runs.any fun r => guardText r.text) = false →
      ((remove_contact_info p).runs)[i]? = (p.runs[i]?).map (fun r =>
        if (p.runs.take i).any run_was_edited || (scrubText r.text).2 then
          { r with text := pyStrip (scrubText r.text).1 }
        else r)) ∧
    (scrubText "আমার মোবাইল নম্বর ফোন: 01712-345678".data).1 =
      "আমার মোবাইল নম্বর ফোন: ".data ∧
    (contact_map_para (mkPara ["আমার মোবাইল নম্বর ফোন: 01712-345678"])).runs =
      [mkRun "আমার মোবাইল নম্বর ফোন:"] := by
  refine ⟨?_, by rfl, by rfl⟩
  intro p i hng
  unfold remove_contact_info
  simp only [hng, Bool.false_eq_true, if_false]
  rw [remove_contact_runs_getElem]
  cases hri : p.runs[i]? with
  | none => simp
  | some r =>
      have hrmem : r ∈ p.runs := List.getElem?_mem hri
      have hgr : guardText r.text = false := by
        have := List.any_eq_false.mp hng
        simpa using this r hrmem
      simp [hgr]

/-- C3 counterexample: the second run «␣keep me␣» matches no contact pattern,
yet after the first run was edited the pass rewrites it to its trimmed text
«keep me» — a match-free run does not keep its text unchanged. -/
theorem contact_pass_trims_unmatched_run_cex :
    (contact_patterns.all fun pat => (findIter pat " keep me ".data).isEmpty) = true ∧
    ((contact_map_para (mkPara ["Phone: 01712345678", " keep me "])).runs.map
        Run.text) = ["Phone:".data, "keep me".data] :=
  ⟨by rfl, by rfl⟩

/-- Witness for the amended C3 theorem at a concrete paragraph and index. -/
theorem contact_removal_per_run_with_trim_propagation_witness :
    ((mkPara ["Phone: 01712345678", " keep me "]).runs.any fun r =>
        guardText r.text) = false ∧
    ((remove_contact_info (mkPara ["Phone: 01712345678", " keep me "])).runs)[1]? =
      ((((mkPara ["Phone: 01712345678", " keep me "]).runs)[1]?).map (fun r =>
        if ((mkPara ["Phone: 01712345678", " keep me "]).runs.take 1).any
            run_was_edited || (scrubText r.text).2 then
          { r with text := pyStrip (scrubText r.text).1 }
        else r)) :=
  ⟨by rfl, contact_removal_per_run_with_trim_propagation.1 _ 1 (by rfl)⟩

/-! Claim C4 (corrected). -/

/-- Column conversion touches no section field other than `cols`. -/
theorem convert_to_single_column_fields (t : Section) :
    (convert_to_single_column t).pgSz = t.pgSz ∧
    (convert_to_single_column t).leftMargin = t.leftMargin ∧
    (convert_to_single_column t).rightMargin = t.rightMargin ∧
    (convert_to_single_column t).topMargin = t.topMargin ∧
    (convert_to_single_column t).bottomMargin = t.bottomMargin ∧
    (convert_to_single_column t).pgBorders = t.pgBorders ∧
    (convert_to_single_column t).header = t.header ∧
    (convert_to_single_column t).footer = t.footer ∧
    (convert_to_single_column t).vmlShapes = t.vmlShapes ∧
    (convert_to_single_column t).picts = t.picts ∧
    (convert_to_single_column t).headerReferences = t.headerReferences ∧
    (convert_to_single_column t).documentBackgrounds = t.documentBackgrounds := by
  unfold convert_to_single_column
  split
  · exact ⟨rfl, rfl, rfl, rfl, rfl, rfl, rfl, rfl, rfl, rfl, rfl, rfl⟩
  · split
    · exact ⟨rfl, rfl, rfl, rfl, rfl, rfl, rfl, rfl, rfl, rfl, rfl, rfl⟩
    · split
      · exact ⟨rfl, rfl, rfl, rfl, rfl, rfl, rfl, rfl, rfl, rfl, rfl, rfl⟩
      · exact ⟨rfl, rfl, rfl, rfl, rfl, rfl, rfl, rfl, rfl, rfl, rfl, rfl⟩

/-- The `cols` field after column conversion, by cases on the declared
count. -/
theorem convert_to_single_column_cols (t : Section) :
    (t.cols = none → (convert_to_single_column t).cols = none) ∧
    (∀ cols, t.cols = some cols → declared_col_count cols = none →
       (convert_to_single_column t).cols = some cols) ∧
    (∀ cols n, t.cols = some cols → declared_col_count cols = some n → n ≤ 1 →
       (convert_to_single_column t).cols = some cols) ∧
    (∀ cols n, t.cols = some cols → declared_col_count cols = some n → 1 < n →
       (convert_to_single_column t).cols =
         some { num := some "1", space := zeroed_col_space cols.space,
                children := [] }) := by
  refine ⟨fun h => ?_, fun cols h hd => ?_, fun cols n h hd hn => ?_,
          fun cols n h hd hn => ?_⟩ <;>
    unfold convert_to_single_column <;> rw [h] <;> dsimp only
  · exact h
  · rw [hd]
    exact h
  · rw [hd]
    dsimp only
    rw [if_neg (not_lt.mpr hn)]
    exact h
  · rw [hd]
    dsimp only
    rw [if_pos hn]

/-- A section value with default fields, used to build concrete sections. -/
def baseSection : Section :=
  { pgSz := none, leftMargin := 0, rightMargin := 0, topMargin := 0,
    bottomMargin := 0,
    header := { isLinkedToPrevious := false, paragraphs := [] },
    footer := { isLinkedToPrevious := false, paragraphs := [] },
    pgBorders := true, cols := none, vmlShapes := 0, picts := 0,
    headerReferences := 0, documentBackgrounds := 0 }

/-- A `w:cols` element declaring no count but carrying a spacing attribute and
a per-column override entry. -/
def looseCols : Cols :=
  { num := none, space := some "708",
    children := [{ w := some "4320", space := some "708" }] }

/-- C4 counterexample: a section whose `w:cols` declares no count (defaulting
to one column) but carries spacing `708` and a per-column override entry keeps
both after processing — the processed section does not have zero inter-column
spacing and no override entries. -/
theorem section_columns_not_normalized_cex :
    (process_section { baseSection with cols := some looseCols }).cols =
      some looseCols := rfl

/-- C4 amended: after processing, every section has a portrait page-size
element of 11906x16838, one-inch (914400 EMU) margins on all four sides, no
page borders, and header and footer linked-to-previous owning no paragraphs;
the column configuration is rewritten (count `1`, spacing zeroed when present
and truthy, override entries removed) only when the declared count exceeds
one — a missing `w:cols` element, an unparseable count, or a declared count
of at most one leaves the column configuration untouched. -/
theorem section_geometry_invariants (s : Section) :
    (process_section s).pgSz =
      some { orient := some "portrait", w := some "11906", h := some "16838" } ∧
    (process_section s).leftMargin = inchEmu ∧
    (process_section s).rightMargin = inchEmu ∧
    (process_section s).topMargin = inchEmu ∧
    (process_section s).bottomMargin = inchEmu ∧
    (process_section s).pgBorders = false ∧
    (process_section s).header = { isLinkedToPrevious := true, paragraphs := [] } ∧
    (process_section s).footer = { isLinkedToPrevious := true, paragraphs := [] } ∧
    (s.cols = none → (process_section s).cols = none) ∧
    (∀ cols, s.cols = some cols → declared_col_count cols = none →
       (process_section s).cols = some cols) ∧
    (∀ cols n, s.cols = some cols → declared_col_count cols = some n → n ≤ 1 →
       (process_section s).cols = some cols) ∧
    (∀ cols n, s.cols = some cols → declared_col_count cols = some n → 1 < n →
       (process_section s).cols =
         some { num := some "1", space := zeroed_col_space cols.space,
                children := [] }) := by
  unfold process_section
  set s5 : Section :=
    { set_portrait_orientation s with
      leftMargin := inchEmu, rightMargin := inchEmu, topMargin := inchEmu,
      bottomMargin := inchEmu,
      header := { isLinkedToPrevious := true, paragraphs := [] },
      footer := { isLinkedToPrevious := true, paragraphs := [] },
      pgBorders := false } with hs5
  have hfields := convert_to_single_column_fields s5
  have hcols := convert_to_single_column_cols s5
  have hc5 : s5.cols = s.cols := rfl
  refine ⟨?_, ?_, ?_, ?_, ?_, ?_, ?_, ?_, ?_, ?_, ?_, ?_⟩
  · show (convert_to_single_column s5).pgSz = _
    rw [hfields.1]; rfl
  · show (convert_to_single_column s5).leftMargin = _
    rw [hfields.2.1]
  · show (convert_to_single_column s5).rightMargin = _
    rw [hfields.2.2.1]
  · show (convert_to_single_column s5).topMargin = _
    rw [hfields.2.2.2.1]
  · show (convert_to_single_column s5).bottomMargin = _
    rw [hfields.2.2.2.2.1]
  · show (convert_to_single_column s5).pgBorders = _
    rw [hfields.2.2.2.2.2.1]
  · show (convert_to_single_column s5).header = _
    rw [hfields.2.2.2.2.2.2.1]
  · show (convert_to_single_column s5).footer = _
    rw [hfields.2.2.2.2.2.2.2.1]
  · intro h
    show (convert_to_single_column s5).cols = none
    exact hcols.1 (hc5.trans h)
  · intro cols h hd
    show (convert_to_single_column s5).cols = some cols
    exact hcols.2.1 cols (hc5.trans h) hd
  · intro cols n h hd hn
    show (convert_to_single_column s5).cols = some cols
    exact hcols.2.2.1 cols n (hc5.trans h) hd hn
  · intro cols n h hd hn
    show (convert_to_single_column s5).cols = _
    exact hcols.2.2.2 cols n (hc5.trans h) hd hn

/-- The spec's scenario columns: three declared columns with explicit
overrides. -/
def threeCols : Cols :=
  { num := some "3", space := some "708",
    children := [{ w := some "2880", space := some "708" }] }

/-- The spec's scenario section with three declared columns. -/
def threeColSection : Section :=
  { baseSection with cols := some threeCols }

/-- Witness for the amended C4 theorem: the three-column section becomes a
one-column section with zero spacing and no override entries. -/
theorem section_geometry_invariants_witness :
    (process_section threeColSection).cols =
      some { num := some "1", space := some "0", children := [] } := by
  have h := (section_geometry_invariants threeColSection).2.2.2.2.2.2.2.2.2.2.2
  exact h threeCols 3 (by rfl) (by rfl) (by norm_num)

/-! Claim C5. -/

/-- Modelled from the claim's ordered steps: empty/whitespace-only → english;
a legacy marker character present or the legacy-character fraction above 10% →
bengali; any Unicode Bengali-block character or joiner → bengali; any
Arabic-block character → arabic; full match of the plain-ASCII prose pattern →
english; nonzero legacy-character count → bengali; otherwise english. -/
def detect_script_spec (t : List Char) : Script :=
  if (pyStrip t).length = 0 then .english
  else if (sutonnymjMarkers.any fun m => t.contains m) ||
      ((10 : ℚ) / 100 <
        (t.countP sutonnymjChar : ℚ) / ((pyStrip t).length : ℚ)) then
    .bengali
  else if t.any bengaliUnicodeChar then .bengali
  else if t.any arabicChar then .arabic
  else if t.all engProse then .english
  else if 0 < t.countP sutonnymjChar then .bengali
  else .english

/-- C5: on every input the classifier agrees with the claim's ordered decision
procedure (and thus returns exactly one of bengali, arabic, english). -/
theorem script_classifier_follows_spec (t : List Char) :
    detect_script t = detect_script_spec t := by
  unfold detect_script detect_script_spec
  by_cases h0 : (pyStrip t).length = 0
  · simp [h0]
  · have hT : (0 : ℚ) < ((pyStrip t).length : ℚ) := by
      exact_mod_cast Nat.pos_of_ne_zero h0
    have key : (100 * t.countP sutonnymjChar > 10 * (pyStrip t).length) ↔
        ((10 : ℚ) / 100 <
          (t.countP sutonnymjChar : ℚ) / ((pyStrip t).length : ℚ)) := by
      rw [div_lt_div_iff₀ (by norm_num) hT]
      constructor
      · intro h
        have h2 : ((10 * (pyStrip t).length : ℕ) : ℚ) <
            ((100 * t.countP sutonnymjChar : ℕ) : ℚ) := by exact_mod_cast h
        push_cast at h2
        linarith
      · intro h
        have h2 : ((10 * (pyStrip t).length : ℕ) : ℚ) <
            ((100 * t.countP sutonnymjChar : ℕ) : ℚ) := by push_cast; linarith
        exact_mod_cast h2
    by_cases hm : (sutonnymjMarkers.any fun m => t.contains m) = true
    · have hm2 : ∃ x ∈ sutonnymjMarkers, x ∈ t := by simpa using hm
      simp [h0, hm2]
    · by_cases hf : 100 * t.countP sutonnymjChar > 10 * (pyStrip t).length
      · simp [h0, hm, hf, key.mp hf]
      · have hf2 : ¬ ((10 : ℚ) / 100 <
            (t.countP sutonnymjChar : ℚ) / ((pyStrip t).length : ℚ)) :=
          fun hq => hf (key.mpr hq)
        simp [h0, hm, hf, hf2]

/-! Claim C6 (corrected). -/

/-- Modelled from the claim's policy table: the target font for each
(flag, script) pair. -/
def font_policy_target : Bool → Script → String
  | true, .bengali => "Kalpurush"
  | true, .english => "Kalpurush"
  | true, .arabic => "Al Majeed Quranic"
  | false, .bengali => "SutonnyMJ"
  | false, .english => "Times New Roman"
  | false, .arabic => "Al Majeed Quranic"

/-- Modelled from the claim's policy table: the skip test against the current
font name — exact equality for the unified face, case-insensitive match
against the spaced and unspaced spellings for the others. -/
def font_policy_skip : Bool → Script → String → Bool
  | true, .bengali, current => current = "Kalpurush"
  | true, .english, current => current = "Kalpurush"
  | true, .arabic, current =>
      ["al majeed quranic", "almajeedquranic"].contains (pyLower current)
  | false, .bengali, current =>
      ["sutonnymj", "sutonny mj"].contains (pyLower current)
  | false, .english, current =>
      ["times new roman", "timesnewroman"].contains (pyLower current)
  | false, .arabic, current =>
      ["al majeed quranic", "almajeedquranic"].contains (pyLower current)

/-- The claim-side per-run substitution: skip blank runs; otherwise rewrite
the font-name attribute to the policy target unless the skip test passes
(a run with no explicit font name counts as the empty string). -/
def run_font_spec (nirmala : Bool) (r : Run) : Run :=
  if blankText r.text then r
  else if font_policy_skip nirmala (detect_script r.text) (r.fontName.getD "") then r
  else { r with fontName := some (font_policy_target nirmala (detect_script r.text)) }

/-- The code's per-run substitution coincides with the claim-side policy
application on every run. -/
theorem process_run_font_eq_spec (nirmala : Bool) (r : Run) :
    process_run_font nirmala r = run_font_spec nirmala r := by
  unfold process_run_font run_font_spec
  by_cases hb : blankText r.text
  · simp [hb]
  · simp only [hb, Bool.false_eq_true, if_false]
    cases hs : detect_script r.text <;> cases nirmala <;>
      simp only [font_policy_skip, font_policy_target, decide_eq_true_eq] <;>
      split_ifs <;> first | rfl | tauto

/-- C6 counterexample: a run whose text is a single space is non-empty, yet
the code skips it: with the flag false and current font `Arial` the policy
table maps it (english script) to `Times New Roman`, but the font name is left
unchanged. -/
theorem font_pass_skips_whitespace_only_run_cex :
    (" ".data ≠ ([] : List Char)) ∧
    process_run_font false
        { text := " ".data, fontName := some "Arial", drawings := [] } =
      { text := " ".data, fontName := some "Arial", drawings := [] } ∧
    font_policy_skip false (detect_script " ".data) "Arial" = false ∧
    font_policy_target false (detect_script " ".data) = "Times New Roman" := by
  exact ⟨by decide, by rfl, by decide, by decide⟩

/-- C6 amended: the document-wide flag is true iff some run of the body or of
a table cell records the legacy UI font; for every run whose text is non-blank
(contains a non-whitespace character) the engine rewrites only the font-name
attribute according to the (flag, script) policy table with its skip rules,
treating a missing font name as the empty string; blank runs (empty or
whitespace-only) are left untouched. -/
theorem font_flag_and_substitution_policy :
    (∀ doc : Doc, check_for_nirmala_ui doc = true ↔
       ((∃ p ∈ doc.paragraphs, ∃ r ∈ p.runs, r.fontName = some "Nirmala UI") ∨
        (∃ tbl ∈ doc.tables, ∃ row ∈ tbl, ∃ cell ∈ row, ∃ p ∈ cell,
           ∃ r ∈ p.runs, r.fontName = some "Nirmala UI"))) ∧
    (∀ (nirmala : Bool) (r : Run),
       process_run_font nirmala r = run_font_spec nirmala r) ∧
    (∀ (nirmala : Bool) (r : Run),
       (process_run_font nirmala r).text = r.text ∧
       (process_run_font nirmala r).drawings = r.drawings) ∧
    (∀ (nirmala : Bool) (p : Paragraph),
       (process_paragraph_fonts nirmala p).alignment = p.alignment ∧
       (process_paragraph_fonts nirmala p).runs =
         p.runs.map (process_run_font nirmala)) := by
  refine ⟨fun doc => ?_, process_run_font_eq_spec, fun nirmala r => ?_,
          fun nirmala p => ⟨rfl, rfl⟩⟩
  · unfold check_for_nirmala_ui
    simp [List.any_eq_true]
  · rw [process_run_font_eq_spec]
    unfold run_font_spec
    split_ifs <;> exact ⟨rfl, rfl⟩

/-! Claim C7. -/

/-- The paragraph-level postcondition of the spacing stage: the semantic
line-spacing attribute holds 1.15 and a `w:spacing` directive is present
carrying `line="276"`, `lineRule="auto"`. -/
def spacing_applied (p : Paragraph) : Bool :=
  p.lineSpacing = some targetLineSpacing &&
    (match p.spacingElem with
     | some e => e.line = some "276" && e.lineRule = some "auto"
     | none => false)

/-- Applying the spacing helper establishes the postcondition. -/
theorem apply_spacing_applied (p : Paragraph) :
    spacing_applied (apply_spacing_to_paragraph p) = true := by
  unfold apply_spacing_to_paragraph spacing_applied
  cases p.spacingElem <;> simp

/-- C7: after the spacing stage every style with a paragraph-formatting facet
holds the 1.15 line-spacing value, and every paragraph — in the body, in
every table cell, and in every section's header and footer — holds both the
semantic 1.15 value and a low-level `w:spacing` directive carrying the
corresponding value (`line=276`, `lineRule=auto`), created when absent. -/
theorem line_spacing_enforced_everywhere (doc : Doc) :
    (∀ st ∈ (set_line_spacing doc).styles, st.hasParagraphFormat = true →
        st.lineSpacing = some targetLineSpacing) ∧
    (∀ p ∈ (set_line_spacing doc).paragraphs, spacing_applied p = true) ∧
    (∀ tbl ∈ (set_line_spacing doc).tables, ∀ row ∈ tbl, ∀ cell ∈ row,
        ∀ p ∈ cell, spacing_applied p = true) ∧
    (∀ s ∈ (set_line_spacing doc).sections,
        (∀ p ∈ s.header.paragraphs, spacing_applied p = true) ∧
        (∀ p ∈ s.footer.paragraphs, spacing_applied p = true)) := by
  unfold set_line_spacing
  refine ⟨?_, ?_, ?_, ?_⟩
  · intro st hst hpf
    simp only [List.mem_map] at hst
    obtain ⟨q, hq, rfl⟩ := hst
    by_cases h : q.hasParagraphFormat = true
    · simp [h]
    · simp only [h, if_false] at hpf ⊢
      exact absurd hpf h
  · intro p hp
    simp only [List.mem_map] at hp
    obtain ⟨q, hq, rfl⟩ := hp
    exact apply_spacing_applied q
  · intro tbl htbl row hrow cell hcell p hp
    simp only [List.mem_map] at htbl
    obtain ⟨tbl0, htbl0, rfl⟩ := htbl
    simp only [List.mem_map] at hrow
    obtain ⟨row0, hrow0, rfl⟩ := hrow
    simp only [List.mem_map] at hcell
    obtain ⟨cell0, hcell0, rfl⟩ := hcell
    simp only [List.mem_map] at hp
    obtain ⟨q, hq, rfl⟩ := hp
    exact apply_spacing_applied q
  · intro s hs
    simp only [List.mem_map] at hs
    obtain ⟨s0, hs0, rfl⟩ := hs
    constructor <;>
      · intro p hp
        simp only [List.mem_map] at hp
        obtain ⟨q, hq, rfl⟩ := hp
        exact apply_spacing_applied q

/-- A small document exercising every traversal of the spacing stage. -/
def spacingDemoDoc : Doc :=
  { paragraphs := [mkPara ["x"]],
    tables := [[[[mkPara ["y"]]]]],
    sections := [{ baseSection with
      header := { isLinkedToPrevious := false, paragraphs := [mkPara ["h"]] } }],
    styles := [{ hasParagraphFormat := true, lineSpacing := none }] }

/-- Witness for C7 at a concrete document, style and paragraph. -/
theorem line_spacing_enforced_everywhere_witness :
    spacing_applied (apply_spacing_to_paragraph (mkPara ["x"])) = true ∧
    ({ hasParagraphFormat := true,
       lineSpacing := some targetLineSpacing } : Style).lineSpacing =
      some targetLineSpacing :=
  ⟨(line_spacing_enforced_everywhere spacingDemoDoc).2.1 _ (by simp [set_line_spacing, spacingDemoDoc]),
   (line_spacing_enforced_everywhere spacingDemoDoc).1 _
     (by simp [set_line_spacing, spacingDemoDoc]) (by rfl)⟩

/-! Claim C8 (code bug). -/

/-- A floating anchor whose position references the column, with two embedded
pictures. -/
def anchorDrawing : Drawing :=
  { kind := .anchor,
    posH := some { relativeFrom := some "column", align := some "left" },
    picCount := 2 }

/-- A paragraph holding a run with that anchor. -/
def imgParagraph : Paragraph :=
  { runs := [{ text := [], fontName := none, drawings := [anchorDrawing] }],
    alignment := none, lineSpacing := none, spacingElem := none }

/-- C8, evaluated at the failing input: `pic.getparent().getparent()` is the
`a:graphic` element, whose tag ends in neither `}inline` nor `}anchor`, so the
inline/anchor dispatch never fires.  The image-bearing paragraph is centered,
but the floating anchor keeps `relativeFrom="column"` and alignment `left`
instead of the documented `margin`/`center`; and the reported count is the
number of image-bearing paragraphs (here 1), not of images (here 2). -/
theorem image_anchor_branch_never_fires :
    tagEndsWith picGrandparentTag "\x7dinline" = false ∧
    tagEndsWith picGrandparentTag "\x7danchor" = false ∧
    (process_images (mkDoc [imgParagraph])).1.paragraphs =
      [{ imgParagraph with alignment := some "center" }] ∧
    (process_images (mkDoc [imgParagraph])).2 = 1 ∧
    anchorDrawing.picCount = 2 :=
  ⟨by rfl, by rfl, by rfl, by rfl, by rfl⟩

/-! Claim C9 (corrected). -/

/-- Pointwise-idempotent maps are idempotent on lists. -/
theorem map_idem {α : Type} (f : α → α) (hf : ∀ a, f (f a) = f a) :
    ∀ l : List α, (l.map f).map f = l.map f
  | [] => rfl
  | a :: l => by simp only [List.map_cons, hf a, map_idem f hf l]

/-- The per-picture body never modifies a drawing (its dispatch never
fires — see the C8 theorem's analysis). -/
theorem process_pic_id (d : Drawing) : process_pic d = d := by
  unfold process_pic
  rw [show tagEndsWith picGrandparentTag "\x7dinline" = false from rfl]
  rw [show tagEndsWith picGrandparentTag "\x7danchor" = false from rfl]
  simp

/-- The image stage only centers an image-bearing paragraph. -/
theorem process_paragraph_images_eq (p : Paragraph) :
    process_paragraph_images p = { p with alignment := some "center" } := by
  unfold process_paragraph_images
  have hrun : ∀ r : Run,
      (⟨r.text, r.fontName,
        r.drawings.map fun d => process_pic^[d.picCount] d⟩ : Run) = r := by
    intro r
    have hdr : (r.drawings.map fun d => process_pic^[d.picCount] d) = r.drawings := by
      have : ∀ d : Drawing, process_pic^[d.picCount] d = d := fun d =>
        Function.iterate_fixed (process_pic_id d) d.picCount
      simp [this]
    rw [hdr]
  congr 1
  have := map_idem (fun r : Run => r) (fun _ => rfl) p.runs
  calc (p.runs.map fun r =>
          { r with drawings := r.drawings.map fun d => process_pic^[d.picCount] d })
      = p.runs.map id := by
        apply List.map_congr_left
        intro r _
        exact hrun r
    _ = p.runs := List.map_id p.runs

/-- The spacing helper is idempotent. -/
theorem apply_spacing_idem (p : Paragraph) :
    apply_spacing_to_paragraph (apply_spacing_to_paragraph p) =
      apply_spacing_to_paragraph p := by
  unfold apply_spacing_to_paragraph
  cases p.spacingElem <;> rfl

/-- The skip test accepts the policy target itself, for every flag and
script. -/
theorem font_policy_skip_target (nirmala : Bool) (sc : Script) :
    font_policy_skip nirmala sc (font_policy_target nirmala sc) = true := by
  cases nirmala <;> cases sc <;> rfl

/-- The claim-side per-run substitution is idempotent. -/
theorem run_font_spec_idem (nirmala : Bool) (r : Run) :
    run_font_spec nirmala (run_font_spec nirmala r) = run_font_spec nirmala r := by
  by_cases hb : blankText r.text
  · simp [run_font_spec, hb]
  · by_cases hskip : font_policy_skip nirmala (detect_script r.text)
        (r.fontName.getD "") = true
    · simp [run_font_spec, hb, hskip]
    · have step1 : run_font_spec nirmala r =
          { r with fontName := some (font_policy_target nirmala (detect_script r.text)) } := by
        simp [run_font_spec, hb, hskip]
      rw [step1]
      unfold run_font_spec
      simp [hb, font_policy_skip_target]

/-- The code's per-run substitution is idempotent. -/
theorem process_run_font_idem (nirmala : Bool) (r : Run) :
    process_run_font nirmala (process_run_font nirmala r) =
      process_run_font nirmala r := by
  simp only [process_run_font_eq_spec, run_font_spec_idem]

/-- A missing `w:cols` element leaves the section unchanged. -/
theorem convert_eq_of_cols_none (s : Section) (h : s.cols = none) :
    convert_to_single_column s = s := by
  unfold convert_to_single_column
  rw [h]

/-- An unparseable declared count leaves the section unchanged. -/
theorem convert_eq_of_parse_fail (s : Section) (cols : Cols)
    (h : s.cols = some cols) (hd : declared_col_count cols = none) :
    convert_to_single_column s = s := by
  unfold convert_to_single_column
  rw [h]
  dsimp only
  rw [hd]

/-- A declared count of at most one leaves the section unchanged. -/
theorem convert_eq_of_le_one (s : Section) (cols : Cols) (n : Int)
    (h : s.cols = some cols) (hd : declared_col_count cols = some n)
    (hn : ¬ 1 < n) : convert_to_single_column s = s := by
  unfold convert_to_single_column
  rw [h]
  dsimp only
  rw [hd]
  dsimp only
  rw [if_neg hn]

/-- A declared count above one rewrites exactly the `cols` field. -/
theorem convert_eq_of_multi (s : Section) (cols : Cols) (n : Int)
    (h : s.cols = some cols) (hd : declared_col_count cols = some n)
    (hn : 1 < n) :
    convert_to_single_column s =
      { s with cols := some (Cols.mk (some "1") (zeroed_col_space cols.space) []) } := by
  unfold convert_to_single_column
  rw [h]
  dsimp only
  rw [hd]
  dsimp only
  rw [if_pos hn]

/-- Column conversion is idempotent. -/
theorem convert_to_single_column_idem (s : Section) :
    convert_to_single_column (convert_to_single_column s) =
      convert_to_single_column s := by
  rcases hc : s.cols with _ | cols
  · rw [convert_eq_of_cols_none s hc, convert_eq_of_cols_none s hc]
  · rcases hd : declared_col_count cols with _ | n
    · have h1 := convert_eq_of_parse_fail s cols hc hd
      rw [h1, h1]
    · by_cases hn : 1 < n
      · have h1 := convert_eq_of_multi s cols n hc hd hn
        rw [h1]
        exact convert_eq_of_le_one _
          (Cols.mk (some "1") (zeroed_col_space cols.space) []) 1 rfl rfl
          (by norm_num)
      · have h1 := convert_eq_of_le_one s cols n hc hd hn
        rw [h1, h1]

/-- A document whose single non-blank run records the legacy UI font.  The
first pipeline run classifies «Hello» as bengali (every ASCII letter is in
the legacy glyph set) and, under the legacy-UI flag, rewrites the run to
Kalpurush; on the pipeline's own output the flag recomputes to false, so the
second run rewrites the same run to SutonnyMJ. -/
def nirmalaDoc : Doc :=
  { paragraphs := [{ runs := [{ text := "Hello".data,
                                fontName := some "Nirmala UI", drawings := [] }],
                     alignment := none, lineSpacing := none, spacingElem := none }],
    tables := [], sections := [], styles := [] }

/-- A document whose single paragraph interleaves phone digits with a URL.
The contact pass applies every pattern once, phone patterns before the URL
pattern, and never re-scans the text: deleting the URL splices the digits
into the contiguous phone number «01712-345678», which therefore survives the
first run; the second run's contact pass deletes it, leaving «মূল্যঃ 5»,
which the second run's price pass then removes entirely. -/
def spliceDoc : Doc := mkDoc [mkPara ["মূল্য01712-345http://a.com678ঃ 5"]]

/-- C9 counterexample theorem: the pipeline applied to its own output differs
from a single application through two independent mechanisms — the legacy-font
flag flips between runs and re-targets fonts, and the contact scrubber's
single-scan splicing creates a phone match (and subsequently a price-line
match) that only the second run acts on. -/
theorem pipeline_not_idempotent_cex :
    ((pipeline nirmalaDoc).1.paragraphs.map fun p => p.runs.map Run.fontName) =
      [[some "Kalpurush"]] ∧
    ((pipeline (pipeline nirmalaDoc).1).1.paragraphs.map fun p =>
        p.runs.map Run.fontName) = [[some "SutonnyMJ"]] ∧
    ((pipeline spliceDoc).1.paragraphs.map paraText) =
      ["মূল্য01712-345678ঃ 5".data] ∧
    (pipeline (pipeline spliceDoc).1).1.paragraphs = [] :=
  ⟨by rfl, by rfl, by rfl, by rfl⟩

/-- The `cols` outcome of per-section processing as a function of the input
column configuration. -/
def cols_transform : Option Cols → Option Cols
  | none => none
  | some cols =>
      match declared_col_count cols with
      | none => some cols
      | some n =>
          if 1 < n then
            some (Cols.mk (some "1") (zeroed_col_space cols.space) [])
          else some cols

/-- Closed form of the per-section processing. -/
theorem process_section_eq (s : Section) :
    process_section s =
      { pgSz := some { orient := some "portrait", w := some "11906",
                       h := some "16838" },
        leftMargin := inchEmu, rightMargin := inchEmu, topMargin := inchEmu,
        bottomMargin := inchEmu,
        header := { isLinkedToPrevious := true, paragraphs := [] },
        footer := { isLinkedToPrevious := true, paragraphs := [] },
        pgBorders := false, cols := cols_transform s.cols,
        vmlShapes := 0, picts := s.picts, headerReferences := s.headerReferences,
        documentBackgrounds := 0 } := by
  rcases hc : s.cols with _ | cols
  · simp [process_section, set_portrait_orientation, remove_watermark,
      convert_to_single_column, cols_transform, hc]
  · rcases hd : declared_col_count cols with _ | n
    · simp [process_section, set_portrait_orientation, remove_watermark,
        convert_to_single_column, cols_transform, hc, hd]
    · by_cases hn : 1 < n <;>
        simp [process_section, set_portrait_orientation, remove_watermark,
          convert_to_single_column, cols_transform, hc, hd, hn]

/-- The column transform is idempotent. -/
theorem cols_transform_idem (c : Option Cols) :
    cols_transform (cols_transform c) = cols_transform c := by
  rcases c with _ | cols
  · rfl
  · rcases hd : declared_col_count cols with _ | n
    · simp [cols_transform, hd]
    · by_cases hn : 1 < n
      · have h1 : declared_col_count
            (Cols.mk (some "1") (zeroed_col_space cols.space) []) = some 1 := rfl
        simp [cols_transform, hd, hn, h1]
      · simp [cols_transform, hd, hn]

/-- Per-section processing is idempotent. -/
theorem process_section_idem (s : Section) :
    process_section (process_section s) = process_section s := by
  simp [process_section_eq, cols_transform_idem]

/-- The spacing stage is idempotent. -/
theorem set_line_spacing_idem (doc : Doc) :
    set_line_spacing (set_line_spacing doc) = set_line_spacing doc := by
  unfold set_line_spacing
  congr 1
  · exact map_idem _ apply_spacing_idem _
  · exact map_idem _
      (fun tbl => map_idem _
        (fun row => map_idem _
          (fun cell => map_idem _ apply_spacing_idem cell) row) tbl) _
  · refine map_idem _ (fun sec => ?_) _
    dsimp only
    congr 1
    · dsimp only
      congr 1
      exact map_idem _ apply_spacing_idem _
    · dsimp only
      congr 1
      exact map_idem _ apply_spacing_idem _
  · refine map_idem _ (fun st => ?_) _
    by_cases h : st.hasParagraphFormat <;> simp [h]

/-- Centering a paragraph does not change whether it bears an image. -/
theorem has_image_set_align (p : Paragraph) (a : Option String) :
    has_image { p with alignment := a } = has_image p := rfl

/-- The per-paragraph image step is idempotent. -/
theorem imgStep_idem (p : Paragraph) : imgStep (imgStep p) = imgStep p := by
  unfold imgStep
  by_cases h : has_image p = true
  · simp only [h, if_true, process_paragraph_images_eq, has_image_set_align]
  · simp only [h]
    simp [h]

/-- The image stage is idempotent on the document. -/
theorem process_images_idem (doc : Doc) :
    (process_images (process_images doc).1).1 = (process_images doc).1 := by
  unfold process_images
  dsimp only
  congr 1
  · exact map_idem _ imgStep_idem _
  · exact map_idem _
      (fun tbl => map_idem _
        (fun row => map_idem _
          (fun cell => map_idem _ imgStep_idem cell) row) tbl) _

/-- The font pass with a fixed flag is idempotent on a paragraph. -/
theorem process_paragraph_fonts_idem (nirmala : Bool) (p : Paragraph) :
    process_paragraph_fonts nirmala (process_paragraph_fonts nirmala p) =
      process_paragraph_fonts nirmala p := by
  unfold process_paragraph_fonts
  congr 1
  exact map_idem _ (process_run_font_idem nirmala) _

/-- C9 amended: idempotence survives only stage-locally — the per-section
geometry stage, the spacing stage, and the image stage are idempotent, and
font substitution run with the same legacy-UI-font flag value is a stable
fixed point (a run already carrying the target font for its detected script
under that flag is left unchanged).  Idempotence of the whole pipeline is
false: the counterexample exhibits the legacy-font flag flipping between a
run and its output, and, independently of the flag, the contact scrubber's
single-scan splicing producing a phone-number deletion and a price-line
paragraph removal that happen only on the second run. -/
theorem pipeline_stage_idempotence :
    (∀ s : Section, process_section (process_section s) = process_section s) ∧
    (∀ doc : Doc, set_line_spacing (set_line_spacing doc) = set_line_spacing doc) ∧
    (∀ doc : Doc, (process_images (process_images doc).1).1 = (process_images doc).1) ∧
    (∀ (nirmala : Bool) (p : Paragraph),
       process_paragraph_fonts nirmala (process_paragraph_fonts nirmala p) =
         process_paragraph_fonts nirmala p) :=
  ⟨process_section_idem, set_line_spacing_idem, process_images_idem,
   process_paragraph_fonts_idem⟩

end PageLayout
